import Mathlib

/-!
# Verification of the `lameduck` shutdown coordinator

A shallow embedding of the `toolman.org/net/lameduck` package (repository
`tep/net-lameduck`) together with proofs about its behavior.

The embedding models:

* Go error values (`GoErr`) with identity-based equality, as used by the
  `switch err` statements in the source;
* the `LameDuckError` outcome type with its `Error()` and `Unwrap()` methods
  (`src/server.go:197-231`);
* runner construction and option resolution (`newRunner`,
  `src/unnamed/part_005:75-103` / `part_006:105-133`, options from
  `src/unnamed/part_001` and `part_002`);
* the `Runner.serve` absorption helper (`src/unnamed/part_005:105-120`);
* the coordinated run protocol of `Runner.Run` (`src/server.go:117-193`):
  two concurrent control paths joined by an errgroup whose `Wait` returns the
  first non-nil error, with the signal/shutdown path classifying the
  `Shutdown` error by identity against `context.DeadlineExceeded`.

Concurrency is modelled by a `RunScenario` describing which external event
unblocks the signal path first (a configured trigger signal, or cancellation
of the run context), whether the server's `Serve` returned on its own before
that, and a tie-break bit for the one genuine race (both goroutines returning
non-nil errors).
-/

namespace Lameduck

/-- An OS signal identifier (`os.Signal`). -/
inductive Sig
  | sigint
  | sigterm
  | other (n : Nat)
deriving DecidableEq, Repr

/-- A Go `error` value.  Equality of this type models Go interface identity:
the sentinel errors `context.DeadlineExceeded`, `context.Canceled` and
`http.ErrServerClosed` are singleton values, `errors.New` values are
identified by their message (the source only ever compares errors against
the sentinels, where this is faithful), and `wrap m e` is an error with
message `m` whose `Unwrap` yields `e` — a distinct value from `e` itself,
exactly as a `fmt.Errorf("...%w...")` wrapper is distinct from the error it
wraps. -/
inductive GoErr
  | deadlineExceeded
  | canceled
  | errServerClosed
  | errorsNew (msg : String)
  | wrap (msg : String) (inner : GoErr)
deriving DecidableEq, Repr

/-- The `Error()` message of a `GoErr`. -/
def GoErr.message : GoErr → String
  | .deadlineExceeded => "context deadline exceeded"
  | .canceled => "context canceled"
  | .errServerClosed => "http: Server closed"
  | .errorsNew m => m
  | .wrap m _ => m

/-- A single `errors.Unwrap` step: only `wrap` values unwrap to an inner
error. -/
def GoErr.unwrapOnce : GoErr → Option GoErr
  | .wrap _ e => some e
  | _ => none

/-- `LameDuckError` (src/server.go:197-200): the tagged outcome returned by
`Run` for errors related to lame-duck mode.  `Err = none` models a nil
`error` field. -/
structure LameDuckError where
  Expired : Bool := false
  Err : Option GoErr := none
deriving DecidableEq, Repr

/-- `(*LameDuckError).Error()` (src/server.go:202-224).  The receiver is an
`Option` so that the nil-receiver guard of the source is represented. -/
def LameDuckError.errorMethod : Option LameDuckError → String
  | none => ""
  | some lde =>
    let msgs : List String :=
      (if lde.Expired then ["Lame-duck period has expired"] else [])
        ++ (match lde.Err with
            | some e => if e.message = "" then [] else [e.message]
            | none => [])
    if msgs.isEmpty then "" else String.intercalate " + " msgs

/-- `(*LameDuckError).Unwrap()` (src/server.go:226-231). -/
def LameDuckError.unwrapMethod : Option LameDuckError → Option GoErr
  | none => none
  | some lde => lde.Err

/-- The error-message composition exactly as the spec words it: the text
"Lame-duck period has expired" when `Expired` is set, joined with the
underlying error's message (when present and non-empty) using the separator
" + "; the empty string when neither component is present. -/
def specErrorMessage (lde : LameDuckError) : String :=
  let m := match lde.Err with
    | some e => e.message
    | none => ""
  if lde.Expired then
    (if m = "" then "Lame-duck period has expired"
     else "Lame-duck period has expired" ++ " + " ++ m)
  else m

/-- The logging sink held in `Runner.logf`.  `glog` is the package default
(`log.Infof`), `infof id` is the bound `Infof` method value of the
caller-supplied `Logger` identified by `id`, and `silent` is the no-op sink
of `loggerOption.set`'s fallback branch (src/unnamed/part_001:66-71). -/
inductive LogSink
  | glog
  | infof (id : Nat)
  | silent
deriving DecidableEq, Repr

/-- The `Runner` configuration after construction
(src/unnamed/part_005:61-73).  The `server`, `ready`, `done` and `once`
fields are behavioral and are modelled by the run protocol below rather than
as data; hooks and loggers are identified by numeric ids. -/
structure Runner where
  period : Int
  escOK : Bool := false
  signals : List Sig
  logf : LogSink := .glog
  psHook : Option Nat := none
deriving DecidableEq, Repr

/-- `defaultPeriod = 3 * time.Second` (src/unnamed/part_006:88-91), in
nanoseconds. -/
def defaultPeriod : Int := 3 * 1000000000

/-- `defaultSignals = []os.Signal{unix.SIGINT, unix.SIGTERM}`
(src/unnamed/part_006:88-91). -/
def defaultSignals : List Sig := [Sig.sigint, Sig.sigterm]

/-- The `Runner` literal built by `newRunner` before options are applied
(src/unnamed/part_005:80-88). -/
def initialRunner : Runner :=
  { period := defaultPeriod
    escOK := false
    signals := defaultSignals
    logf := LogSink.glog
    psHook := none }

/-- The `Option` values of the package (src/unnamed/part_001, part_002):
`Period`, `Signals`, `WithLogger` / `WithoutLogger` (the latter is
`withLogger none`, a `loggerOption` holding a nil `Logger`),
`WithPreShutdownHook`, and `ErrServerClosedOK`. -/
inductive RunOption
  | period (p : Int)
  | signals (s : List Sig)
  | withLogger (l : Option Nat)
  | preShutdownHook (h : Nat)
  | errServerClosedOK
deriving DecidableEq, Repr

/-- The field update performed by each option's `set` method, ignoring the
nil-logger crash (see `RunOption.set` below for the faithful version).
`withLogger none` is mapped to the `silent` sink this branch was intended to
install. -/
def RunOption.setPure (r : Runner) : RunOption → Runner
  | .period p => { r with period := p }
  | .signals s => { r with signals := s }
  | .withLogger none => { r with logf := LogSink.silent }
  | .withLogger (some l) => { r with logf := LogSink.infof l }
  | .preShutdownHook h => { r with psHook := some h }
  | .errServerClosedOK => { r with escOK := true }

/-- Each option's `set` method, faithfully.  `loggerOption.set`
(src/unnamed/part_001:66-71) evaluates the method value `o.logger.Infof`
before its `r.logf == nil` guard can run; when the held `Logger` interface is
nil (as built by `WithoutLogger`), evaluating a method value of a nil
interface is a Go run-time panic, modelled as `Except.error`. -/
def RunOption.set (r : Runner) : RunOption → Except String Runner
  | .withLogger none =>
    .error "runtime error: invalid memory address or nil pointer dereference"
  | o => .ok (RunOption.setPure r o)

/-- The option-application loop of `newRunner`
(src/unnamed/part_005:90-92): `for _, o := range options { o.set(r) }`,
stopping at a panic. -/
def applyOptions (r : Runner) : List RunOption → Except String Runner
  | [] => .ok r
  | o :: os =>
    match RunOption.set r o with
    | .ok r2 => applyOptions r2 os
    | .error m => .error m

/-- The possible outcomes of `newRunner`: a usable runner, a synchronous
construction error (`errors.New`), or a run-time panic raised while applying
an option. -/
inductive NewRunnerResult
  | ok (r : Runner)
  | err (msg : String)
  | panics (msg : String)
deriving DecidableEq, Repr

/-- `newRunner` (src/unnamed/part_005:75-103, identical validation in
part_006:105-133): reject a nil `Server`, apply the options in order over the
defaults, then reject a non-positive period or an empty trigger-signal set.
The nil-ness of the `svr` argument is all the construction logic inspects of
it, so it is passed as a `Bool`. -/
def newRunner (svrIsNil : Bool) (options : List RunOption) : NewRunnerResult :=
  if svrIsNil then .err "nil Server"
  else
    match applyOptions initialRunner options with
    | .error m => .panics m
    | .ok r =>
      if r.period ≤ 0 then .err "lame-duck period must be greater than zero"
      else if r.signals.isEmpty then .err "no lame-duck signals defined"
      else .ok r

/-- `Runner.serve`'s error classification (src/unnamed/part_005:105-120):
the result of `r.server.Serve(ctx)` is passed through unchanged, except that
`http.ErrServerClosed` is absorbed (treated as nil) when the `escOK`
compatibility flag is set. -/
def Runner.serve (r : Runner) (err : Option GoErr) : Option GoErr :=
  match err with
  | none => none
  | some e => if r.escOK = true ∧ e = GoErr.errServerClosed then none else some e

/-- The behavior of the external `Server` during one run, at the interface
boundary used by `Runner.Run`:

* `shutdownErr` — what `Shutdown(ctx)` returns if it is called;
* `closeErr` — what `Close()` returns if it is called;
* `serveStopErr` — what `Serve(ctx)` returns once it is unblocked by the
  cancellation/shutdown/close of the run (the `lameduck.Server` contract,
  src/server.go:46-59, asks for nil here);
* `hookErr` — what the registered pre-shutdown hook returns if it is called.
-/
structure ServerBehavior where
  shutdownErr : Option GoErr
  closeErr : Option GoErr
  serveStopErr : Option GoErr
  hookErr : Option GoErr
deriving DecidableEq, Repr

/-- The external event that unblocks the signal path's
`waitForSignal` (src/signals.go:21-35): either one of the configured trigger
signals is delivered, or the run context is canceled first, in which case
`waitForSignal` returns `ctx.Err()` (carried as `ctxErr`). -/
inductive Trigger
  | signal (s : Sig)
  | cancel (ctxErr : GoErr)
deriving DecidableEq, Repr

/-- One interleaving of a run:

* `earlyServe = some res` — `Serve` returned `res` on its own, before any
  trigger signal or cancellation; `none` — `Serve` blocks until the run stops
  it (and then returns `ServerBehavior.serveStopErr`);
* `ender` — the event that unblocks the signal path, relevant whenever the
  run does not already end at `earlyServe`;
* `serveWinsRace` — tie-break for the only genuine race on the final result:
  when both goroutines return non-nil errors, whether the serve goroutine's
  error reached the errgroup first. -/
structure RunScenario where
  earlyServe : Option (Option GoErr)
  ender : Trigger
  serveWinsRace : Bool
deriving DecidableEq, Repr

/-- The value `Runner.Run` returns: nil, a verbatim (unwrapped) error, or a
`*LameDuckError`. -/
inductive RunResult
  | ok
  | raw (e : GoErr)
  | lameDuck (l : LameDuckError)
deriving DecidableEq, Repr

/-- Goroutine #1 of `Runner.Run` (src/server.go:130-163): wait for a signal
or cancellation; on cancellation return `ctx.Err()` raw; on a signal call
`Shutdown` with a period-bounded context and classify its error by identity
(`switch err`): nil → nil, `context.DeadlineExceeded` → `LameDuckError`
with `Expired=true` and `Err` = the result of `Close()`, anything else →
`LameDuckError` with `Expired=false` wrapping it. -/
def sigPathOutcome (b : ServerBehavior) : Trigger → RunResult
  | Trigger.cancel ce => RunResult.raw ce
  | Trigger.signal _ =>
    match b.shutdownErr with
    | none => RunResult.ok
    | some GoErr.deadlineExceeded =>
      RunResult.lameDuck { Expired := true, Err := b.closeErr }
    | some e => RunResult.lameDuck { Expired := false, Err := some e }

/-- Whether the run already ends inside the serve goroutine: `Serve` returned
before any trigger and its classified error is non-nil
(src/server.go:174-177), so the serve goroutine returns it and the errgroup
cancels the signal path. -/
def endedEarly (r : Runner) (sc : RunScenario) : Bool :=
  match sc.earlyServe with
  | some res => (r.serve res).isSome
  | none => false

/-- How many times `Close()` is invoked during the run: once when a trigger
signal was observed and `Shutdown` returned exactly
`context.DeadlineExceeded` (src/server.go:151-156), and never otherwise. -/
def closeCallCount (r : Runner) (b : ServerBehavior) (sc : RunScenario) : Nat :=
  if endedEarly r sc then 0
  else
    match sc.ender with
    | Trigger.cancel _ => 0
    | Trigger.signal _ =>
      if b.shutdownErr = some GoErr.deadlineExceeded then 1 else 0

/-- How many times `Shutdown` is invoked during the run: once when a trigger
signal was observed (src/server.go:145), and never otherwise. -/
def shutdownCallCount (r : Runner) (sc : RunScenario) : Nat :=
  if endedEarly r sc then 0
  else
    match sc.ender with
    | Trigger.cancel _ => 0
    | Trigger.signal _ => 1

/-- Whether the signal path explicitly cancels the shared run context, which
happens only in the `default` branch of the `Shutdown` switch
(src/server.go:158-162). -/
def explicitCancelHappened (r : Runner) (b : ServerBehavior) (sc : RunScenario) : Bool :=
  if endedEarly r sc then false
  else
    match sc.ender with
    | Trigger.cancel _ => false
    | Trigger.signal _ =>
      match b.shutdownErr with
      | none => false
      | some GoErr.deadlineExceeded => false
      | some _ => true

/-- `errgroup.Wait` reconciliation: the first non-nil error returned by
either goroutine wins; `g1` is the signal path's return value, `g2err` the
serve goroutine's, `serveFirst` the race tie-break used only when both are
non-nil. -/
def joinResults (g1 : RunResult) (g2err : Option GoErr) (serveFirst : Bool) :
    RunResult :=
  match g1, g2err with
  | RunResult.ok, none => RunResult.ok
  | RunResult.ok, some e => RunResult.raw e
  | r1, none => r1
  | r1, some e => if serveFirst then RunResult.raw e else r1

/-- The serve goroutine's classified error for the whole run: the classified
value of whatever `Serve` returned (its early return when there is one, its
post-stop return otherwise).

Modelled from the spec for the classification call site: the serve-path of
the spec (§4.2 serve path step 3, and §4 "absorbed" errors) processes the
server's error through the absorption rule, which is `Runner.serve`
(src/unnamed/part_005:105-120); the `Run` revision under src/server.go calls
`r.server.Serve` directly, the wiring of `Runner.serve` into the serve
goroutine is taken from the spec.  For a runner without the compatibility
flag the two are identical. -/
def serveClassifiedErr (r : Runner) (b : ServerBehavior) (sc : RunScenario) :
    Option GoErr :=
  match sc.earlyServe with
  | some res => r.serve res
  | none => r.serve b.serveStopErr

/-- The overall result of `Runner.Run` (src/server.go:117-193) on a
scenario: if `Serve` returned a non-absorbed error before any trigger, the
serve goroutine returns it first (the signal path only unblocks afterwards,
through the errgroup's cancellation) and `eg.Wait()` yields it; otherwise
the signal path's outcome and the serve goroutine's eventual return value
are reconciled by `joinResults`. -/
def runOutcome (r : Runner) (b : ServerBehavior) (sc : RunScenario) : RunResult :=
  match sc.earlyServe with
  | some res =>
    match r.serve res with
    | some e => RunResult.raw e
    | none => joinResults (sigPathOutcome b sc.ender) none sc.serveWinsRace
  | none =>
    joinResults (sigPathOutcome b sc.ender) (r.serve b.serveStopErr)
      sc.serveWinsRace

/-- An observable action of the signal/shutdown path. -/
inductive SigEvent
  | hookCall (h : Nat)
  | shutdownCall
  | closeCall
deriving DecidableEq, Repr

/-- Whether an event is an invocation of the pre-shutdown hook. -/
def isHookCall : SigEvent → Bool
  | SigEvent.hookCall _ => true
  | _ => false

/-- Modelled from the spec: the sequence of server-facing actions of the
signal/shutdown path once `waitForSignal` returns.  The invocation of the
registered pre-shutdown hook is missing from src/server.go's `Run` (only its
registration, `WithPreShutdownHook` and the `psHook` field, is under src,
src/unnamed/part_002:76-95 and part_005:67); per spec §4.2 signal path step 4 the hook
is invoked with the run context immediately before `Shutdown`, and any error
it returns is logged, never propagated.  The `Shutdown` and `Close` calls
follow src/server.go:145-156. -/
def sigPathEvents (r : Runner) (b : ServerBehavior) : Trigger → List SigEvent
  | Trigger.cancel _ => []
  | Trigger.signal _ =>
    (match r.psHook with
     | some h => [SigEvent.hookCall h]
     | none => [])
      ++ [SigEvent.shutdownCall]
      ++ (if b.shutdownErr = some GoErr.deadlineExceeded
          then [SigEvent.closeCall] else [])

/-- Modelled from the spec (§4.2 signal path step 4): whether the hook's error gets
logged — it does exactly when a hook is registered, a trigger signal was
delivered, and the hook returned a non-nil error. -/
def hookErrLogged (r : Runner) (b : ServerBehavior) : Trigger → Bool
  | Trigger.cancel _ => false
  | Trigger.signal _ => r.psHook.isSome && b.hookErr.isSome

/-- The lame-duck lifecycle `State` (src/unnamed/part_005:3-13,
src/state.go). -/
inductive State
  | Unknown
  | NotStarted
  | Running
  | Failed
  | Stopping
  | Stopped
deriving DecidableEq, Repr

/-- `(*Runner).State()` (src/state.go:31-37): a nil receiver, or one whose
`done` channel is nil (a `Runner` that was never produced by `newRunner`),
reports `Unknown`; otherwise the current value of the `state` field.  The
receiver is modelled as `none` for the never-constructed case and
`some current` otherwise. -/
def stateQuery : Option State → State
  | none => State.Unknown
  | some s => s

/-- Modelled from the spec (§4.2 state machine): the sequence of values the
`state` field takes during a run.  The transition writes are missing from
src/server.go's `Run` (which never assigns `r.state`; only the `State` type,
the `State()` accessor and the tests checking the transitions are under
src): `NotStarted` at construction (src/unnamed/part_005:85), `Running` when
the serve path begins invoking `Serve`, `Failed` when the serve path's
classified error is non-nil, else `Stopping` then `Stopped` as the run winds
down. -/
def stateTrace (r : Runner) (b : ServerBehavior) (sc : RunScenario) :
    List State :=
  State.NotStarted :: State.Running ::
    (if (serveClassifiedErr r b sc).isSome then [State.Failed]
     else [State.Stopping, State.Stopped])

/-- The transition relation of the spec's state machine (§4.2):
`NotStarted → Running`, `Running → Failed`, `Running → Stopping`,
`Stopping → Stopped`; `Failed` and `Stopped` are terminal. -/
def specStep : State → State → Bool
  | State.NotStarted, State.Running => true
  | State.Running, State.Failed => true
  | State.Running, State.Stopping => true
  | State.Stopping, State.Stopped => true
  | _, _ => false

/-- Every adjacent pair of a list satisfies the step relation. -/
def chainOK (step : State → State → Bool) : List State → Bool
  | [] => true
  | [_] => true
  | a :: b :: rest => step a b && chainOK step (b :: rest)

/-- C9: for every `*LameDuckError` value, `Error()` equals the composition
described by the spec — "Lame-duck period has expired" when `Expired` is
true, joined with the underlying error's message (when the error is non-nil
and its message non-empty) using " + ", the empty string when neither
component is present — and `Unwrap()` returns the held `Err` (with a nil
receiver yielding the empty string and nil respectively). -/
theorem lameDuckError_error_and_unwrap (l : LameDuckError) :
    LameDuckError.errorMethod (some l) = specErrorMessage l ∧
    LameDuckError.errorMethod none = "" ∧
    LameDuckError.unwrapMethod (some l) = l.Err ∧
    LameDuckError.unwrapMethod none = none := by
  refine ⟨?_, rfl, rfl, rfl⟩
  obtain ⟨ex, er⟩ := l
  rcases er with _ | e
  · cases ex <;> rfl
  · by_cases h : e.message = "" <;> cases ex <;>
      simp [LameDuckError.errorMethod, specErrorMessage, h,
        String.intercalate, String.intercalate.go]

/-- C3: if `Serve` returns a non-absorbed, non-nil error before any trigger
signal is observed, `Run` returns that exact error value raw (not wrapped in
a `LameDuckError`), `Shutdown` is never attempted and `Close` is never
invoked. -/
theorem serve_failure_returned_verbatim (r : Runner) (b : ServerBehavior)
    (sc : RunScenario) (e : GoErr)
    (hearly : sc.earlyServe = some (some e))
    (habs : r.serve (some e) = some e) :
    runOutcome r b sc = RunResult.raw e ∧
    shutdownCallCount r sc = 0 ∧
    closeCallCount r b sc = 0 := by
  have hended : endedEarly r sc = true := by
    simp [endedEarly, hearly, habs]
  refine ⟨?_, ?_, ?_⟩
  · simp [runOutcome, hearly, habs]
  · simp [shutdownCallCount, hended]
  · simp [closeCallCount, hended]

/-- Witness for `serve_failure_returned_verbatim`: a run in which `Serve`
fails at once with `errors.New("server failed to start")`. -/
theorem serve_failure_returned_verbatim_concrete :
    runOutcome initialRunner
        ⟨none, none, none, none⟩
        ⟨some (some (GoErr.errorsNew "server failed to start")),
          Trigger.signal Sig.sigterm, false⟩ =
      RunResult.raw (GoErr.errorsNew "server failed to start") ∧
    shutdownCallCount initialRunner
        ⟨some (some (GoErr.errorsNew "server failed to start")),
          Trigger.signal Sig.sigterm, false⟩ = 0 ∧
    closeCallCount initialRunner ⟨none, none, none, none⟩
        ⟨some (some (GoErr.errorsNew "server failed to start")),
          Trigger.signal Sig.sigterm, false⟩ = 0 :=
  serve_failure_returned_verbatim initialRunner ⟨none, none, none, none⟩
    ⟨some (some (GoErr.errorsNew "server failed to start")),
      Trigger.signal Sig.sigterm, false⟩
    (GoErr.errorsNew "server failed to start") rfl (by decide)

/-- C4: if the caller's context is canceled before any trigger signal and
before any serve failure (the server, being cooperative, returns no error of
its own once stopped), `Run` returns the underlying cancellation error
verbatim, not wrapped in a `LameDuckError`. -/
theorem cancellation_returned_verbatim (r : Runner) (b : ServerBehavior)
    (sc : RunScenario) (ce : GoErr)
    (hearly : endedEarly r sc = false)
    (hender : sc.ender = Trigger.cancel ce)
    (hstop : r.serve b.serveStopErr = none) :
    runOutcome r b sc = RunResult.raw ce := by
  rcases hsc : sc.earlyServe with _ | res
  · simp [runOutcome, hsc, hstop, hender, sigPathOutcome, joinResults]
  · have habs : r.serve res = none := by
      by_contra hne
      have : endedEarly r sc = true := by
        simp [endedEarly, hsc, Option.isSome_iff_ne_none, hne]
      simp [this] at hearly
    simp [runOutcome, hsc, habs, hender, sigPathOutcome, joinResults]

/-- Witness for `cancellation_returned_verbatim`: the context is canceled at
once and `Serve` unblocks returning nil. -/
theorem cancellation_returned_verbatim_concrete :
    runOutcome initialRunner ⟨none, none, none, none⟩
        ⟨none, Trigger.cancel GoErr.canceled, false⟩ =
      RunResult.raw GoErr.canceled :=
  cancellation_returned_verbatim initialRunner ⟨none, none, none, none⟩
    ⟨none, Trigger.cancel GoErr.canceled, false⟩ GoErr.canceled
    (by decide) rfl (by decide)

/-- C1: when a trigger signal is delivered and `Shutdown` returns
`context.DeadlineExceeded` (the server honouring its contract of returning
nil from `Serve` once stopped), `Close` is invoked exactly once and `Run`
returns a `*LameDuckError` with `Expired = true` and `Err` equal to `Close`'s
return value, possibly nil; and conversely, in any run whatsoever in which
`Shutdown` does not return the `context.DeadlineExceeded` sentinel, `Close`
is never invoked. -/
theorem expired_shutdown_forces_close (r : Runner) (b : ServerBehavior)
    (sc : RunScenario) :
    ((∃ s, sc.ender = Trigger.signal s) → endedEarly r sc = false →
      r.serve b.serveStopErr = none →
      b.shutdownErr = some GoErr.deadlineExceeded →
      closeCallCount r b sc = 1 ∧
        runOutcome r b sc =
          RunResult.lameDuck { Expired := true, Err := b.closeErr }) ∧
    (b.shutdownErr ≠ some GoErr.deadlineExceeded →
      closeCallCount r b sc = 0) := by
  constructor
  · rintro ⟨s, hender⟩ hearly hstop hsd
    have hcount : closeCallCount r b sc = 1 := by
      simp [closeCallCount, hearly, hender, hsd]
    refine ⟨hcount, ?_⟩
    rcases hsc : sc.earlyServe with _ | res
    · simp [runOutcome, hsc, hstop, hender, sigPathOutcome, hsd,
        joinResults]
    · have habs : r.serve res = none := by
        by_contra hne
        have : endedEarly r sc = true := by
          simp [endedEarly, hsc, Option.isSome_iff_ne_none, hne]
        simp [this] at hearly
      simp [runOutcome, hsc, habs, hender, sigPathOutcome, hsd,
        joinResults]
  · intro hne
    by_cases hearly : endedEarly r sc = true
    · simp [closeCallCount, hearly]
    · rcases hender : sc.ender with s | ce
      · simp [closeCallCount, hearly, hender, hne]
      · simp [closeCallCount, hearly, hender]

/-- Witness for `expired_shutdown_forces_close`: SIGTERM is delivered,
`Shutdown` runs out of the period and `Close` returns nil. -/
theorem expired_shutdown_forces_close_concrete :
    closeCallCount initialRunner
        ⟨some GoErr.deadlineExceeded, none, none, none⟩
        ⟨none, Trigger.signal Sig.sigterm, false⟩ = 1 ∧
      runOutcome initialRunner
          ⟨some GoErr.deadlineExceeded, none, none, none⟩
          ⟨none, Trigger.signal Sig.sigterm, false⟩ =
        RunResult.lameDuck { Expired := true, Err := none } :=
  (expired_shutdown_forces_close initialRunner
      ⟨some GoErr.deadlineExceeded, none, none, none⟩
      ⟨none, Trigger.signal Sig.sigterm, false⟩).1
    ⟨Sig.sigterm, rfl⟩ (by decide) (by decide) rfl

/-- Shared helper: the `default` branch of the `Shutdown` switch
(src/server.go:158-162) — a non-nil, non-`DeadlineExceeded` error makes the
signal path cancel the shared context and return a `LameDuckError` with
`Expired = false`, with `Close` never invoked. -/
theorem shutdown_default_branch (r : Runner) (b : ServerBehavior)
    (sc : RunScenario) (s : Sig) (e : GoErr)
    (hender : sc.ender = Trigger.signal s)
    (hearly : endedEarly r sc = false)
    (hstop : r.serve b.serveStopErr = none)
    (hsd : b.shutdownErr = some e)
    (hne : e ≠ GoErr.deadlineExceeded) :
    runOutcome r b sc =
        RunResult.lameDuck { Expired := false, Err := some e } ∧
      closeCallCount r b sc = 0 ∧
      explicitCancelHappened r b sc = true := by
  have hpath : sigPathOutcome b sc.ender =
      RunResult.lameDuck { Expired := false, Err := some e } := by
    rw [hender]
    cases e <;> simp_all [sigPathOutcome]
  refine ⟨?_, ?_, ?_⟩
  · rcases hsc : sc.earlyServe with _ | res
    · simp [runOutcome, hsc, hstop, hpath, joinResults]
    · have habs : r.serve res = none := by
        by_contra hab
        have : endedEarly r sc = true := by
          simp [endedEarly, hsc, Option.isSome_iff_ne_none, hab]
        simp [this] at hearly
      simp [runOutcome, hsc, habs, hpath, joinResults]
  · have : b.shutdownErr ≠ some GoErr.deadlineExceeded := by
      rw [hsd]
      exact fun hcon => hne (by injection hcon)
    simp [closeCallCount, hearly, hender, this]
  · rw [explicitCancelHappened, if_neg (by simp [hearly]), hender, hsd]
    cases e <;> simp_all

/-- C2: when a trigger signal is delivered and `Shutdown` returns a non-nil
error other than the `context.DeadlineExceeded` sentinel (the server
honouring its contract of returning nil from `Serve` once stopped), `Run`
returns a `*LameDuckError` with `Expired = false` and `Err` equal to that
error, the shared run context is explicitly canceled (unblocking the serve
path), and `Close` is never invoked. -/
theorem other_shutdown_error_wrapped (r : Runner) (b : ServerBehavior)
    (sc : RunScenario) (s : Sig) (e : GoErr)
    (hender : sc.ender = Trigger.signal s)
    (hearly : endedEarly r sc = false)
    (hstop : r.serve b.serveStopErr = none)
    (hsd : b.shutdownErr = some e)
    (hne : e ≠ GoErr.deadlineExceeded) :
    runOutcome r b sc =
        RunResult.lameDuck { Expired := false, Err := some e } ∧
      closeCallCount r b sc = 0 ∧
      explicitCancelHappened r b sc = true :=
  shutdown_default_branch r b sc s e hender hearly hstop hsd hne

/-- Witness for `other_shutdown_error_wrapped`: SIGINT is delivered and
`Shutdown` fails with `errors.New("server failed to shutdown")`. -/
theorem other_shutdown_error_wrapped_concrete :
    runOutcome initialRunner
        ⟨some (GoErr.errorsNew "server failed to shutdown"), none, none,
          none⟩
        ⟨none, Trigger.signal Sig.sigint, false⟩ =
      RunResult.lameDuck
        { Expired := false,
          Err := some (GoErr.errorsNew "server failed to shutdown") } ∧
    closeCallCount initialRunner
        ⟨some (GoErr.errorsNew "server failed to shutdown"), none, none,
          none⟩
        ⟨none, Trigger.signal Sig.sigint, false⟩ = 0 ∧
    explicitCancelHappened initialRunner
        ⟨some (GoErr.errorsNew "server failed to shutdown"), none, none,
          none⟩
        ⟨none, Trigger.signal Sig.sigint, false⟩ = true :=
  other_shutdown_error_wrapped initialRunner
    ⟨some (GoErr.errorsNew "server failed to shutdown"), none, none, none⟩
    ⟨none, Trigger.signal Sig.sigint, false⟩ Sig.sigint
    (GoErr.errorsNew "server failed to shutdown") rfl (by decide)
    (by decide) rfl (by decide)

/-- C10: the deadline classification of the `Shutdown` error is by identity
with the `context.DeadlineExceeded` sentinel: an error that merely wraps the
sentinel (unwraps to it while being a distinct value) lands in the `default`
branch of the switch, so `Close` is never invoked and the result is a
`*LameDuckError` with `Expired = false` holding that wrapper. -/
theorem wrapped_deadline_not_identified (r : Runner) (b : ServerBehavior)
    (sc : RunScenario) (s : Sig) (e : GoErr)
    (hender : sc.ender = Trigger.signal s)
    (hearly : endedEarly r sc = false)
    (hstop : r.serve b.serveStopErr = none)
    (hsd : b.shutdownErr = some e)
    (hwraps : e.unwrapOnce = some GoErr.deadlineExceeded) :
    e ≠ GoErr.deadlineExceeded ∧
      closeCallCount r b sc = 0 ∧
      runOutcome r b sc =
        RunResult.lameDuck { Expired := false, Err := some e } := by
  have hne : e ≠ GoErr.deadlineExceeded := by
    cases e <;> simp_all [GoErr.unwrapOnce]
  have h := shutdown_default_branch r b sc s e hender hearly hstop hsd hne
  exact ⟨hne, h.2.1, h.1⟩

/-- Witness for `wrapped_deadline_not_identified`: `Shutdown` returns
`fmt.Errorf("shutdown: %w", context.DeadlineExceeded)`. -/
theorem wrapped_deadline_not_identified_concrete :
    GoErr.wrap "shutdown: context deadline exceeded" GoErr.deadlineExceeded ≠
        GoErr.deadlineExceeded ∧
      closeCallCount initialRunner
          ⟨some (GoErr.wrap "shutdown: context deadline exceeded"
            GoErr.deadlineExceeded), none, none, none⟩
          ⟨none, Trigger.signal Sig.sigint, true⟩ = 0 ∧
      runOutcome initialRunner
          ⟨some (GoErr.wrap "shutdown: context deadline exceeded"
            GoErr.deadlineExceeded), none, none, none⟩
          ⟨none, Trigger.signal Sig.sigint, true⟩ =
        RunResult.lameDuck
          { Expired := false,
            Err := some (GoErr.wrap "shutdown: context deadline exceeded"
              GoErr.deadlineExceeded) } :=
  wrapped_deadline_not_identified initialRunner
    ⟨some (GoErr.wrap "shutdown: context deadline exceeded"
      GoErr.deadlineExceeded), none, none, none⟩
    ⟨none, Trigger.signal Sig.sigint, true⟩ Sig.sigint
    (GoErr.wrap "shutdown: context deadline exceeded"
      GoErr.deadlineExceeded) rfl (by decide) (by decide) rfl (by decide)

/-- When no option in the list is a nil-logger `loggerOption`, the
option-application loop never panics and resolves to a left fold of the
individual field updates, i.e. later options override earlier ones. -/
theorem applyOptions_eq_foldl (opts : List RunOption) (r : Runner)
    (h : ∀ o ∈ opts, o ≠ RunOption.withLogger none) :
    applyOptions r opts =
      Except.ok (opts.foldl RunOption.setPure r) := by
  induction opts generalizing r with
  | nil => rfl
  | cons o os ih =>
    have ho : o ≠ RunOption.withLogger none := h o (by simp)
    have hset : RunOption.set r o = Except.ok (RunOption.setPure r o) := by
      rcases o with p | s | l | hk | _
      · rfl
      · rfl
      · rcases l with _ | l
        · exact absurd rfl ho
        · rfl
      · rfl
      · rfl
    rw [applyOptions, hset]
    exact ih (RunOption.setPure r o) (fun o2 ho2 => h o2 (by simp [ho2]))

/-- C6: the claimed construction contract, together with the input on which
the code breaks it.  Applying the option built by `WithoutLogger()` panics
inside `loggerOption.set` (nil `Logger` dereference), so construction
neither reports a configuration error nor yields a runner there.  For every
option list free of that landmine, construction fails exactly when the
server reference is nil, the resolved grace period is ≤ 0, or the resolved
trigger-signal set is empty, and otherwise succeeds with the options folded
in order over the defaults (3-second period, `{SIGINT, SIGTERM}`). -/
theorem construction_validation (svrIsNil : Bool) (opts : List RunOption)
    (hsafe : ∀ o ∈ opts, o ≠ RunOption.withLogger none) :
    newRunner false [RunOption.withLogger none] =
        NewRunnerResult.panics
          "runtime error: invalid memory address or nil pointer dereference" ∧
      (newRunner svrIsNil opts =
          NewRunnerResult.ok (opts.foldl RunOption.setPure initialRunner) ↔
        (svrIsNil = false ∧
          0 < (opts.foldl RunOption.setPure initialRunner).period ∧
          (opts.foldl RunOption.setPure initialRunner).signals ≠ [])) ∧
      newRunner false [] = NewRunnerResult.ok initialRunner ∧
      initialRunner.period = 3 * 1000000000 ∧
      initialRunner.signals = [Sig.sigint, Sig.sigterm] := by
  refine ⟨rfl, ?_, rfl, rfl, rfl⟩
  have happ := applyOptions_eq_foldl opts initialRunner hsafe
  cases svrIsNil with
  | true => simp [newRunner]
  | false =>
    rw [newRunner, if_neg (by simp), happ]
    by_cases hp : (opts.foldl RunOption.setPure initialRunner).period ≤ 0
    · simp [hp, not_lt.mpr hp]
    · by_cases hs :
        (opts.foldl RunOption.setPure initialRunner).signals.isEmpty
      · have hnil : (opts.foldl RunOption.setPure initialRunner).signals = [] :=
          List.isEmpty_iff.mp hs
        simp [hp, hs, hnil]
      · have hnil :
            (opts.foldl RunOption.setPure initialRunner).signals ≠ [] := by
          simpa [List.isEmpty_iff] using hs
        simp [hp, hs, hnil, not_le.mp hp]

/-- Witness for `construction_validation`: two `Period` options in a row;
construction succeeds and the later one wins. -/
theorem construction_validation_concrete :
    newRunner false [RunOption.period 1, RunOption.period 5000000000] =
      NewRunnerResult.ok
        ([RunOption.period 1, RunOption.period 5000000000].foldl
          RunOption.setPure initialRunner) :=
  ((construction_validation false
      [RunOption.period 1, RunOption.period 5000000000]
      (by decide)).2.1).mpr (by refine ⟨rfl, by decide, by decide⟩)

/-- C7: with the `ErrServerClosedOK` compatibility flag set, a
`http.ErrServerClosed` returned by `Serve` is absorbed: the classified
serve-path error is nil, and the run proceeds exactly as if `Serve` had
returned nil, so the sentinel is not surfaced from `Run`; without the flag,
or for any other error value, nothing is absorbed. -/
theorem errServerClosed_absorption (r : Runner) (b : ServerBehavior)
    (sc : RunScenario) (e : GoErr) :
    (r.escOK = true → r.serve (some GoErr.errServerClosed) = none) ∧
      (r.escOK = true → sc.earlyServe = some (some GoErr.errServerClosed) →
        serveClassifiedErr r b sc = none ∧
          runOutcome r b sc =
            runOutcome r b { sc with earlyServe := some none }) ∧
      (r.escOK = false → r.serve (some e) = some e) ∧
      (e ≠ GoErr.errServerClosed → r.serve (some e) = some e) := by
  refine ⟨?_, ?_, ?_, ?_⟩
  · intro hesc
    simp [Runner.serve, hesc]
  · intro hesc hearly
    have habs : r.serve (some GoErr.errServerClosed) = none := by
      simp [Runner.serve, hesc]
    constructor
    · simp [serveClassifiedErr, hearly, habs]
    · simp [runOutcome, hearly, habs, Runner.serve, hesc]
  · intro hesc
    simp [Runner.serve, hesc]
  · intro hne
    simp [Runner.serve, hne]

/-- Witness for `errServerClosed_absorption`: with the flag set and `Serve`
returning the sentinel before a SIGTERM, the run result is the same as for a
clean `Serve` return. -/
theorem errServerClosed_absorption_concrete :
    runOutcome { initialRunner with escOK := true } ⟨none, none, none, none⟩
        ⟨some (some GoErr.errServerClosed), Trigger.signal Sig.sigterm,
          false⟩ =
      runOutcome { initialRunner with escOK := true } ⟨none, none, none, none⟩
        ⟨some none, Trigger.signal Sig.sigterm, false⟩ :=
  ((errServerClosed_absorption { initialRunner with escOK := true }
      ⟨none, none, none, none⟩
      ⟨some (some GoErr.errServerClosed), Trigger.signal Sig.sigterm, false⟩
      GoErr.errServerClosed).2.1 rfl rfl).2

/-- C8: with a registered pre-shutdown hook, once a trigger signal is
delivered the hook is invoked exactly once, immediately before `Shutdown`
begins; the hook's error is logged but never changes `Run`'s result; and
without a signal the hook is never invoked. -/
theorem pre_shutdown_hook_behavior (r : Runner) (b : ServerBehavior)
    (sc : RunScenario) (s : Sig) (h : Nat) (he : Option GoErr)
    (hender : sc.ender = Trigger.signal s)
    (hhook : r.psHook = some h) :
    sigPathEvents r b sc.ender =
        SigEvent.hookCall h :: SigEvent.shutdownCall ::
          (if b.shutdownErr = some GoErr.deadlineExceeded
           then [SigEvent.closeCall] else []) ∧
      (sigPathEvents r b sc.ender).countP isHookCall = 1 ∧
      runOutcome r { b with hookErr := he } sc = runOutcome r b sc ∧
      (b.hookErr.isSome = true → hookErrLogged r b sc.ender = true) ∧
      (∀ ce : GoErr, sigPathEvents r b (Trigger.cancel ce) = []) := by
  refine ⟨?_, ?_, ?_, ?_, fun ce => rfl⟩
  · simp [sigPathEvents, hender, hhook]
  · by_cases hsd : b.shutdownErr = some GoErr.deadlineExceeded <;>
      simp [sigPathEvents, hender, hhook, hsd, isHookCall]
  · obtain ⟨sd, cl, sv, hk⟩ := b
    rfl
  · intro hsome
    simp [hookErrLogged, hender, hhook, hsome]

/-- Witness for `pre_shutdown_hook_behavior`: hook #7 registered, SIGINT
delivered, clean shutdown, hook fails with an error that is logged. -/
theorem pre_shutdown_hook_behavior_concrete :
    sigPathEvents { initialRunner with psHook := some 7 }
        ⟨none, none, none, some (GoErr.errorsNew "hook failed")⟩
        (Trigger.signal Sig.sigint) =
      SigEvent.hookCall 7 :: SigEvent.shutdownCall ::
        (if (none : Option GoErr) = some GoErr.deadlineExceeded
         then [SigEvent.closeCall] else []) :=
  (pre_shutdown_hook_behavior { initialRunner with psHook := some 7 }
      ⟨none, none, none, some (GoErr.errorsNew "hook failed")⟩
      ⟨none, Trigger.signal Sig.sigint, false⟩ Sig.sigint 7 none rfl
      rfl).1

/-- C5: every run's sequence of lifecycle states follows the spec's state
machine — it starts at `NotStarted` (the value set at construction), every
transition is one of `NotStarted → Running`, `Running → Failed`,
`Running → Stopping`, `Stopping → Stopped`, and it ends in a terminal state
(`Failed` or `Stopped`) — while `State()` reports the `Unknown` sentinel for
a never-constructed coordinator and never for a state reached by a run. -/
theorem lifecycle_state_machine (r : Runner) (b : ServerBehavior)
    (sc : RunScenario) :
    chainOK specStep (stateTrace r b sc) = true ∧
      (stateTrace r b sc).head? = some State.NotStarted ∧
      ((stateTrace r b sc).getLast? = some State.Failed ∨
        (stateTrace r b sc).getLast? = some State.Stopped) ∧
      stateQuery none = State.Unknown ∧
      (∀ st ∈ stateTrace r b sc, stateQuery (some st) ≠ State.Unknown) := by
  by_cases hf : (serveClassifiedErr r b sc).isSome <;>
    simp [stateTrace, hf, chainOK, specStep, stateQuery]

/-- Witness for `lifecycle_state_machine`: in a clean SIGTERM-triggered run
the `Running` state is reported as such, not as `Unknown`. -/
theorem lifecycle_state_machine_concrete :
    stateQuery (some State.Running) ≠ State.Unknown :=
  (lifecycle_state_machine initialRunner ⟨none, none, none, none⟩
      ⟨none, Trigger.signal Sig.sigterm, false⟩).2.2.2.2
    State.Running (by decide)

end Lameduck
